import Mathlib

/-!
Verification of the `tuicric` SysEx patch-dump module (`src/tuicric/dump.py`).

The development shallowly embeds the parameter-schema data model, the
construction-time validation, the per-parameter `format` rules, the decoder
`dump_sysex_patch_gv`, and the graphviz renderer.  Python `assert` failures and
the implicit `TypeError`/`ZeroDivisionError`/`IndexError` raised by the source
are modelled with `Except`.  Python integers are `Int`; Python floats are
modelled as exact rationals (all arithmetic performed by the concrete schema is
exact in double precision, so the idealisation is faithful on every value the
program computes).
-/

set_option autoImplicit false
set_option maxRecDepth 16384

/-- The distinct failure kinds the module can raise.  Python raises
`AssertionError` with distinct messages for each of these; the spec names them
(`HeaderMismatchError`, `LengthMismatchError`, `RangeError`, `ChoiceIndexError`,
`ConstructionError`), and we keep the payloads the messages carry. -/
inductive SysexError where
  /-- `assert range_min <= raw and raw <= range_max` in `SysexInfoParam.format`. -/
  | rangeAssert (raw lo hi : Int)
  /-- `assert raw < len(self.choices)` in `SysexInfoParamChoice.format`. -/
  | choiceIndexAssert (raw : Int) (numChoices : Nat)
  /-- Python `ZeroDivisionError` in `SysexInfoParamMap.format` when
  `range_max == range_min`. -/
  | zeroDivision
  /-- `assert sysex.startswith(PATCH_HEADER)` in `dump_sysex_patch_gv`;
  carries the expected header and the actual prefix of the buffer. -/
  | headerMismatch (expected actual : List Nat)
  /-- `assert len(sysex) == PATCH_LEN` in `dump_sysex_patch_gv`;
  carries the expected and actual lengths. -/
  | lengthMismatch (expected actual : Nat)
  /-- `assert range_min <= range_max` in `SysexInfoParam.__init__`. -/
  | minMaxAssert
  /-- `assert range_min <= default and default <= range_max` in
  `SysexInfoParam.__init__`. -/
  | defaultRangeAssert
  /-- `assert len(choices) >= 1` in `SysexInfoParamChoice.__init__`. -/
  | choiceEmptyAssert
  /-- `assert isinstance(map_min, type(map_max))` in
  `SysexInfoParamMap.__init__`. -/
  | mapTypeAssert
  /-- Python `TypeError` (e.g. `None += list` in
  `SysexInfoSectionEnvelope.__init__`). -/
  | typeError
  /-- Python `IndexError` from list indexing. -/
  | indexError
deriving DecidableEq

deriving instance DecidableEq for Except

/-- A Python number: the module mixes `int` and `float` map endpoints and
checks `isinstance(map_min, type(map_max))`.  Floats are modelled as exact
rationals (see the module docstring). -/
inductive PyNum where
  | int (i : Int)
  | float (q : Rat)
deriving DecidableEq

/-- `isinstance(a, type(b))` for the `int`/`float` pair. -/
def PyNum.sameKind : PyNum → PyNum → Bool
  | .int _, .int _ => true
  | .float _, .float _ => true
  | _, _ => false

def PyNum.toRat : PyNum → Rat
  | .int i => (i : Rat)
  | .float q => q

/-- Python `int(x)`: truncation toward zero.  For a normalised rational this
is the truncating division of numerator by denominator. -/
def pyTrunc (q : Rat) : Int :=
  q.num.tdiv (q.den : Int)

/-- `mapped_type(mapped)` in `SysexInfoParamMap.format`: cast `q` to the kind
of the first argument. -/
def PyNum.castFrom : PyNum → Rat → PyNum
  | .int _, q => .int (pyTrunc q)
  | .float _, q => .float q

/-- The integer a `PyNum` contributes to a `%d` conversion. -/
def PyNum.toIntTrunc : PyNum → Int
  | .int i => i
  | .float q => pyTrunc q

/-- Rendering for the `%.2f` conversion: two decimal places, round half up on
the magnitude (the schema only ever formats values that are exact at two
decimals, so the tie-breaking convention is never exercised). -/
def pyRenderFix2 (q : Rat) : String :=
  let neg := q.num < 0
  let n := (200 * q.num.natAbs + q.den) / (2 * q.den)
  let ip := n / 100
  let fp := n % 100
  (if neg then "-" else "") ++ toString ip ++ "." ++
    (if fp < 10 then "0" else "") ++ toString fp

/-- Rendering for the `%+d` conversion: always emit a sign. -/
def pyRenderSigned (n : Int) : String :=
  if 0 ≤ n then "+" ++ toString n else toString n

/-- Python `str` of a number, as used by the `%s` conversion.  The float
branch approximates `str(float)`; the schema only ever combines `%s` with
integer-kind maps, so it is unreachable there. -/
def PyNum.pyStr : PyNum → String
  | .int i => toString i
  | .float q => if q.den = 1 then toString q.num ++ ".0" else pyRenderFix2 q

/-- Python `%`-formatting restricted to the conversions the module uses
(`%s`, `%%`, `%+d`, `%d`, `%.2f`). -/
def pyFormatChars : List Char → PyNum → List Char
  | [], _ => []
  | '%' :: '%' :: rest, v => '%' :: pyFormatChars rest v
  | '%' :: 's' :: rest, v => (PyNum.pyStr v).data ++ pyFormatChars rest v
  | '%' :: '+' :: 'd' :: rest, v =>
      (pyRenderSigned (PyNum.toIntTrunc v)).data ++ pyFormatChars rest v
  | '%' :: '.' :: '2' :: 'f' :: rest, v =>
      (pyRenderFix2 (PyNum.toRat v)).data ++ pyFormatChars rest v
  | '%' :: 'd' :: rest, v =>
      (toString (PyNum.toIntTrunc v)).data ++ pyFormatChars rest v
  | c :: rest, v => c :: pyFormatChars rest v

def pyFormat (fmt : String) (v : PyNum) : String :=
  ⟨pyFormatChars fmt.data v⟩

/-- A decoded display value: the base class returns the raw integer, the
`Choice` and `Map` subclasses return strings. -/
inductive DisplayValue where
  | int (i : Int)
  | str (s : String)
deriving DecidableEq

/-- `'%s' % value` on a display value. -/
def DisplayValue.pyStr : DisplayValue → String
  | .int i => toString i
  | .str s => s

/-- Python list indexing `l[i]` (negative indices wrap; out of range raises
`IndexError`). -/
def pyListGet {α : Type} (l : List α) (i : Int) : Except SysexError α :=
  let j := if 0 ≤ i then i else (l.length : Int) + i
  if 0 ≤ j then
    match l.get? j.toNat with
    | some a => .ok a
    | none => .error .indexError
  else .error .indexError

/-- `mapM` over `Except`, written by explicit recursion to mirror the source's
left-to-right loops. -/
def mapMExcept {α β : Type} (f : α → Except SysexError β) :
    List α → Except SysexError (List β)
  | [] => .ok []
  | a :: rest =>
    match f a with
    | .error e => .error e
    | .ok b =>
      match mapMExcept f rest with
      | .error e => .error e
      | .ok bs => .ok (b :: bs)

/-! ### GraphvizMixin (`dump.py` lines 17-83)

Attribute dictionaries are insertion-ordered association lists, matching
Python 3 `dict` semantics.  Literal braces in produced strings are written
with their escapes. -/

def signal_attrs : List (String × String) := [("style", "bold"), ("color", "red")]

def data_attrs : List (String × String) := [("style", "dashed"), ("color", "blue")]

def handle_attrs : List (String × String) := [("style", "bold"), ("shape", "record")]

def param_attrs : List (String × String) := [("shape", "record")]

/-- Python `dict.update`: keys already present are overwritten in place, new
keys are appended in order. -/
def dictUpdate (d upd : List (String × String)) : List (String × String) :=
  upd.foldl
    (fun acc kv =>
      if acc.any (fun p => p.fst = kv.fst) then
        acc.map (fun p => if p.fst = kv.fst then kv else p)
      else acc ++ [kv])
    d

/-- `\W` (non-word) characters are removed by `make_id`; the schema's names
are ASCII so the ASCII reading of `\w` is exact here. -/
def isWordChar (c : Char) : Bool := c.isAlphanum || c = '_'

/-- `GraphvizMixin.make_id`: lowercase, then strip non-word characters. -/
def make_id (s : String) : String := ⟨(s.data.map Char.toLower).filter isWordChar⟩

/-- `GraphvizMixin.line_delimeter`. -/
def line_delimeter (indentation : Nat) : String :=
  "\n" ++ ⟨List.replicate indentation '\t'⟩

/-- `GraphvizMixin.gv_str_attr`. -/
def gv_str_attr (attrs : List (String × String)) : String :=
  if attrs.isEmpty then ""
  else " [" ++ String.intercalate "," (attrs.map (fun kv => kv.fst ++ "=" ++ kv.snd)) ++ "]"

inductive GvEdgeType where
  | signal
  | data
deriving DecidableEq

inductive GvNodeType where
  | handle
  | param
deriving DecidableEq

/-- `GraphvizMixin.gv_connection`.  Note the source produces a double space
before the attribute list (`' ' + gv_str_attr(...)` where `gv_str_attr`
itself starts with a space); we reproduce it. -/
def gv_connection (from_id to_id : String) (edge_attrs : List (String × String))
    (edge_type : Option GvEdgeType) : String :=
  let ea := match edge_type with
    | some .signal => dictUpdate edge_attrs signal_attrs
    | some .data => dictUpdate edge_attrs data_attrs
    | none => edge_attrs
  (from_id ++ " -> " ++ to_id) ++
    (if ea.isEmpty then "" else " " ++ gv_str_attr ea) ++ ";"

/-- `GraphvizMixin.gv_node` (the `print` logging call is dropped). -/
def gv_node (node_id : String) (node_attrs : List (String × String))
    (node_type : Option GvNodeType) : String :=
  let na := match node_type with
    | some .handle => dictUpdate node_attrs handle_attrs
    | some .param => dictUpdate node_attrs param_attrs
    | none => node_attrs
  node_id ++ (if na.isEmpty then "" else " " ++ gv_str_attr na)

/-! ### SysexInfoParam and its variants (`dump.py` lines 273-389)

Python's subclass dispatch over `format` becomes a closed kind tag carried by
the parameter record. -/

inductive SysexInfoParamKind where
  /-- Plain `SysexInfoParam` (identity formatting). -/
  | base
  /-- `SysexInfoParamChoice` with its ordered label table. -/
  | choice (choices : List String)
  /-- `SysexInfoParamMap` with its endpoints and format string. -/
  | map (map_min map_max : PyNum) (fmt_str : String)
deriving DecidableEq

structure SysexInfoParam where
  offset : Int
  name : String
  range_min : Int
  range_max : Int
  default : Int
  /-- `self.raw = None` at construction; assigned by a decode pass. -/
  raw : Option Int
  kind : SysexInfoParamKind
deriving DecidableEq

/-- `SysexInfoParam.__init__`: the two sanity-check asserts, in source order,
then the field assignments. -/
def SysexInfoParam.init (offset : Int) (name : String)
    (range_min range_max default : Int) (kind : SysexInfoParamKind) :
    Except SysexError SysexInfoParam :=
  if range_min ≤ range_max then
    if range_min ≤ default ∧ default ≤ range_max then
      .ok ⟨offset, name, range_min, range_max, default, none, kind⟩
    else .error .defaultRangeAssert
  else .error .minMaxAssert

/-- The range assert shared by every `format` override
(`SysexInfoParam.format`). -/
def SysexInfoParam.formatBase (p : SysexInfoParam) (raw : Int) :
    Except SysexError Int :=
  if p.range_min ≤ raw ∧ raw ≤ p.range_max then .ok raw
  else .error (.rangeAssert raw p.range_min p.range_max)

/-- The linear interpolation computed by `SysexInfoParamMap.format`:
`(raw - range_min) * (map_max - map_min) / (range_max - range_min) + map_min`
(Python true division; exact here, see the module docstring).  The expression
is written as a single integer fraction — with `mM = mM.num / mM.den` and
`mm = mm.num / mm.den` put over the common denominator
`(range_max - range_min) * mM.den * mm.den` — so that the kernel can evaluate
it; `mapLinear_eq` below proves it equal to the source's expression whenever
the divisor `range_max - range_min` is nonzero (the zero case raises
`ZeroDivisionError` before this value is used). -/
def mapLinear (raw range_min range_max : Int) (map_min map_max : PyNum) : Rat :=
  let mm := map_min.toRat
  let mM := map_max.toRat
  Rat.divInt
    ((raw - range_min) * (mM.num * (mm.den : Int) - mm.num * (mM.den : Int)) +
      mm.num * (mM.den : Int) * (range_max - range_min))
    ((range_max - range_min) * (mM.den : Int) * (mm.den : Int))


/-- `format` with the source's subclass dispatch: the base range assert first,
then the variant-specific rule.  The `Map` branch makes Python's implicit
`ZeroDivisionError` (when `range_max == range_min`) explicit. -/
def SysexInfoParam.format (p : SysexInfoParam) (raw : Int) :
    Except SysexError DisplayValue :=
  match p.formatBase raw with
  | .error e => .error e
  | .ok raw =>
    match p.kind with
    | .base => .ok (.int raw)
    | .choice choices =>
      if raw < (choices.length : Int) then
        match pyListGet choices raw with
        | .ok s => .ok (.str s)
        | .error e => .error e
      else .error (.choiceIndexAssert raw choices.length)
    | .map map_min map_max fmt_str =>
      if p.range_max - p.range_min = 0 then .error .zeroDivision
      else
        .ok (.str (pyFormat fmt_str
          (PyNum.castFrom map_min (mapLinear raw p.range_min p.range_max map_min map_max))))

/-- `SysexInfoParam.value`: `format(raw if raw is not None else default)`. -/
def SysexInfoParam.value (p : SysexInfoParam) : Except SysexError DisplayValue :=
  p.format (match p.raw with | some r => r | none => p.default)

def SysexInfoParam.gv_id (p : SysexInfoParam) : String := make_id p.name

/-- `SysexInfoParam.label`: `"{<mod>m|<in>i}|{%s|%s}|<out>o" % (name, value)`. -/
def SysexInfoParam.label (p : SysexInfoParam) : Except SysexError String :=
  match p.value with
  | .error e => .error e
  | .ok v => .ok ("\x7b<mod>m|<in>i\x7d|\x7b" ++ p.name ++ "|" ++ v.pyStr ++ "\x7d|<out>o")

/-- `SysexInfoParam.to_gv` (its `indentation` argument is unused in the
source, so it is dropped here). -/
def SysexInfoParam.to_gv (p : SysexInfoParam) : Except SysexError String :=
  match p.label with
  | .error e => .error e
  | .ok lbl => .ok (p.gv_id ++ " [" ++ "shape=record," ++ "label=\"" ++ lbl ++ "\"" ++ "]")

/-- `SysexInfoParamChoice.__init__`: non-empty label table, then `range_max`
is forced to `range_min + len(choices) - 1` before delegating to the base
constructor (any caller-supplied `range_max` is overwritten).  `range_min`
and `default` are modelled as keyword arguments, which is how every call in
the source passes them. -/
def SysexInfoParamChoice.init (offset : Int) (name : String)
    (choices : List String) (range_min default : Int) :
    Except SysexError SysexInfoParam :=
  if choices.length < 1 then .error .choiceEmptyAssert
  else
    SysexInfoParam.init offset name range_min
      (range_min + (choices.length : Int) - 1) default (.choice choices)

/-- `SysexInfoParamMap.__init__`: endpoint kinds must match, then delegate. -/
def SysexInfoParamMap.init (offset : Int) (name : String)
    (map_min map_max : PyNum) (fmt_str : String)
    (range_min range_max default : Int) :
    Except SysexError SysexInfoParam :=
  if PyNum.sameKind map_min map_max then
    SysexInfoParam.init offset name range_min range_max default
      (.map map_min map_max fmt_str)
  else .error .mapTypeAssert

/-- The fixed oscillator waveform table of `SysexInfoParamChoiceOscWave`
(30 entries). -/
def OSC_WAVE_CHOICES : List String :=
  ["sine", "triangle", "sawtooth", "saw 9:1 PW", "saw 8:2 PW",
   "saw 7:3 PW", "saw 6:4 PW", "saw 5:5 PW", "saw 4:6 PW",
   "saw 3:7 PW", "saw 2:8 PW", "saw 1:9 PW", "pulse width",
   "square", "sine table", "analogue pulse", "analogue sync",
   "triange-saw blend", "digital nasty 1", "digital nasty 2",
   "digital saw-square", "digital vocal 1", "digital vocal 2",
   "digital vocal 3", "digital vocal 4", "digital vocal 5",
   "digital vocal 6", "random collection 1",
   "random collection 2", "random collection 3"]

def SysexInfoParamChoiceOscWave.init (offset : Int) (name : String)
    (range_min default : Int) : Except SysexError SysexInfoParam :=
  SysexInfoParamChoice.init offset name OSC_WAVE_CHOICES range_min default

/-- The fixed LFO waveform table of `SysexInfoParamChoiceLFOWave`
(37 entries; defined by the source but not used by `PATCH_INFO`). -/
def LFO_WAVE_CHOICES : List String :=
  ["sine", "triangle", "sawtooth", "square", "random S/H",
   "time S/H", "piano envelope", "sequence 1", "sequence 2",
   "sequence 3", "sequence 4", "sequence 5", "sequence 6",
   "sequence 7", "alternative 1", "alternative 2",
   "alternative 3", "alternative 4", "alternative 5",
   "alternative 6", "alternative 7", "alternative 8",
   "chromatic", "chromatic 16", "major", "major 7",
   "minor 7", "minor arp 1", "minor arp 2", "diminished",
   "dec minor", "minor 3rd", "pedal", "4ths", "4ths x 12",
   "1625 Maj", "1625 Min", "2511"]

def SysexInfoParamChoiceLFOWave.init (offset : Int) (name : String)
    (range_min default : Int) : Except SysexError SysexInfoParam :=
  SysexInfoParamChoice.init offset name LFO_WAVE_CHOICES range_min default

/-! ### Sections (`dump.py` lines 118-271)

The subclass (Generic / Oscillator / Mixer / Envelope) is a closed kind tag;
the only behavioural difference is in `gv_components`. -/

inductive SysexInfoSectionKind where
  | generic
  | oscillator
  | mixer
  | envelope
deriving DecidableEq

structure SysexInfoSection where
  kind : SysexInfoSectionKind
  name : String
  params : List SysexInfoParam
deriving DecidableEq

/-- `SysexInfoSection.__init__` (`params=None` defaults to the empty list). -/
def SysexInfoSection.init (name : String) (params : Option (List SysexInfoParam)) :
    SysexInfoSection :=
  ⟨.generic, name, params.getD []⟩

/-- `SysexInfoSection.gv_id`: `'cluster_%s' % make_id(name)`. -/
def SysexInfoSection.gv_id (s : SysexInfoSection) : String :=
  "cluster_" ++ make_id s.name

/-- The base `SysexInfoSection.gv_components`: the handle node followed by one
`param.to_gv + ';'` statement per parameter (its `indentation` argument is
unused in the source; the `print` logging call is dropped). -/
def SysexInfoSection.gv_components_base (s : SysexInfoSection) :
    Except SysexError (List String) :=
  match mapMExcept
      (fun p => match p.to_gv with
        | .ok g => .ok (g ++ ";")
        | .error e => .error e)
      s.params with
  | .error e => .error e
  | .ok stmts =>
    .ok (gv_node ("handle_" ++ make_id s.name)
          [("label", "\"<in>|" ++ s.name ++ "|<out>\"")] (some .handle) :: stmts)

/-- The four extra fixed signal edges `SysexInfoSectionMixer.gv_components`
appends after the base components. -/
def mixer_extra_edges : List String :=
  [gv_connection "oscillator1level:out"
      "\x7bringmodlevel:in:w, prefxlevel:in:w\x7d" [] (some .signal),
   gv_connection "oscillator2level:out"
      "\x7bringmodlevel:in:w, prefxlevel:in:w\x7d" [] (some .signal),
   gv_connection "ringmodlevel:out:e" "prefxlevel:in:w" [] (some .signal),
   gv_connection "noiselevel:out:e" "prefxlevel:in:w" [] (some .signal)]

/-- `gv_components` with the subclass dispatch of the source:
`SysexInfoSectionEnvelope.gv_components` replaces the whole list with two
fixed node ids and never emits its parameters. -/
def SysexInfoSection.gv_components (s : SysexInfoSection) :
    Except SysexError (List String) :=
  match s.kind with
  | .envelope =>
    .ok ["handle_oscillator1_" ++ s.gv_id, "handle_oscillator1_" ++ s.gv_id]
  | .mixer =>
    match s.gv_components_base with
    | .error e => .error e
    | .ok base => .ok (base ++ mixer_extra_edges)
  | _ => s.gv_components_base

/-- `SysexInfoSection.to_gv`. -/
def SysexInfoSection.to_gv (s : SysexInfoSection) (indentation : Nat) :
    Except SysexError String :=
  match s.gv_components with
  | .error e => .error e
  | .ok comps =>
    .ok ("subgraph " ++ (s.gv_id ++ (" \x7b" ++
      (line_delimeter (indentation + 1) ++
        (String.intercalate (line_delimeter (indentation + 1)) comps ++
          (line_delimeter indentation ++ "\x7d"))))))

/-- `SysexInfoSectionOscillator.__init__`: the eight fixed parameters at the
caller-supplied base offset. -/
def SysexInfoSectionOscillator.init (name : String) (offset : Int) :
    Except SysexError SysexInfoSection := do
  let p0 ← SysexInfoParamChoiceOscWave.init (offset + 0x00) (name ++ " Wave") 0 2
  let p1 ← SysexInfoParamMap.init (offset + 0x01) (name ++ " Wave Interpolate")
    (.int 0) (.int 100) "%s%%" 0 127 0
  let p2 ← SysexInfoParamMap.init (offset + 0x02) (name ++ " Pulse Withdraw Index")
    (.int (-64)) (.int 64) "%s" 0 127 127
  let p3 ← SysexInfoParamMap.init (offset + 0x03) (name ++ " Virtual Sync Depth")
    (.int 0) (.int 100) "%s%%" 0 127 0
  let p4 ← SysexInfoParamMap.init (offset + 0x03) (name ++ " Density")
    (.int 0) (.int 100) "%s%%" 0 127 0
  let p5 ← SysexInfoParamMap.init (offset + 0x03) (name ++ " Density Detune")
    (.int 0) (.int 100) "%s%%" 0 127 0
  let p6 ← SysexInfoParamMap.init (offset + 0x02) (name ++ " Semitones")
    (.int (-64)) (.int 64) "%+d semitones" 0 127 64
  let p7 ← SysexInfoParamMap.init (offset + 0x02) (name ++ " Cents")
    (.int (-100)) (.int 100) "%+d cents" 0 127 64
  pure (SysexInfoSection.mk .oscillator name [p0, p1, p2, p3, p4, p5, p6, p7])

/-- `SysexInfoSectionMixer.__init__`: the six fixed mixer parameters. -/
def SysexInfoSectionMixer.init (name : String) (offset : Int) :
    Except SysexError SysexInfoSection := do
  let p0 ← SysexInfoParamMap.init (offset + 0x00) "Oscillator 1 Level"
    (.int 0) (.int 100) "%s%%" 0 127 127
  let p1 ← SysexInfoParamMap.init (offset + 0x01) "Oscillator 2 Level"
    (.int 0) (.int 100) "%s%%" 0 127 0
  let p2 ← SysexInfoParamMap.init (offset + 0x02) "Ring Mod Level"
    (.int 0) (.int 100) "%s%%" 0 127 0
  let p3 ← SysexInfoParamMap.init (offset + 0x03) "Noise Level"
    (.int 0) (.int 100) "%s%%" 0 127 0
  let p4 ← SysexInfoParamMap.init (offset + 0x04) "Pre FX Level"
    (.float (-12)) (.float 18) "%.2fdB" 0 127 64
  let p5 ← SysexInfoParamMap.init (offset + 0x05) "Post FX Level"
    (.float (-12)) (.float 18) "%.2fdB" 0 127 64
  pure (SysexInfoSection.mk .mixer name [p0, p1, p2, p3, p4, p5])

/-- `SysexInfoSectionEnvelope.__init__`.  The source's `params is None`
branch assigns `defaults = []` instead of `params = []`, so the following
`params += [...]` is applied to `None` and raises a `TypeError`: the
caller-supplied parameter list is effectively mandatory.  When it is supplied,
the four ADSR parameters are appended after it (the `+=` also mutates the
caller's list in Python; the decode path never relies on that). -/
def SysexInfoSectionEnvelope.init (name : String) (offset : Int)
    (params : Option (List SysexInfoParam)) : Except SysexError SysexInfoSection :=
  match params with
  | none => .error .typeError
  | some ps => do
    let a ← SysexInfoParamMap.init (offset + 0x01) (name ++ " Attack")
      (.int 0) (.int 100) "%s%%" 0 127 0
    let d ← SysexInfoParamMap.init (offset + 0x02) (name ++ " Decay")
      (.int 0) (.int 100) "%s%%" 0 127 0
    let s ← SysexInfoParamMap.init (offset + 0x03) (name ++ " Sustain")
      (.int 0) (.int 100) "%s%%" 0 127 0
    let r ← SysexInfoParamMap.init (offset + 0x04) (name ++ " Release")
      (.int 0) (.int 100) "%s%%" 0 127 0
    pure (SysexInfoSection.mk .envelope name (ps ++ [a, d, s, r]))

/-! ### SysexInfo and the patch schema (`dump.py` lines 87-116, 392-457) -/

structure SysexInfo where
  name : String
  sections : List SysexInfoSection
deriving DecidableEq

/-- `SysexInfo.gv_components`: each section's subgraph text followed by the
two fixed cross-section signal edges. -/
def SysexInfo.gv_components (info : SysexInfo) (indentation : Nat) :
    Except SysexError (List String) :=
  match mapMExcept (fun s => s.to_gv indentation) info.sections with
  | .error e => .error e
  | .ok secs =>
    .ok (secs ++
      [gv_connection "handle_oscillator1:out" "oscillator1level:in" [] (some .signal),
       gv_connection "handle_oscillator2:out" "oscillator2level:in" [] (some .signal)])

/-- `SysexInfo.to_gv`. -/
def SysexInfo.to_gv (info : SysexInfo) (indentation : Nat) :
    Except SysexError String :=
  match info.gv_components (indentation + 1) with
  | .error e => .error e
  | .ok comps =>
    .ok ("digraph \x7b" ++
      (line_delimeter (indentation + 1) ++
        (String.intercalate (line_delimeter (indentation + 1)) comps ++
          (line_delimeter indentation ++ "\x7d"))))

def PATCH_LEN : Nat := 350

/-- `binascii.a2b_hex('F0002029')`. -/
def PATCH_HEADER : List Nat := [0xF0, 0x00, 0x20, 0x29]

/-- The module-level `PATCH_INFO` schema literal, with each nested
constructor call made explicit in the `Except` monad. -/
def PATCH_INFO : Except SysexError SysexInfo := do
  let polyphony ← SysexInfoParamChoice.init 0x29 "Polyphony Mode"
    ["Mono", "MonoAG", "Poly"] 0 2
  let portamento ← SysexInfoParamMap.init 0x2A "Portamento Rate"
    (.int 0) (.int 100) "%s%%" 0 127 0
  let preGlide ← SysexInfoParamMap.init 0x2B "Pre-Glide"
    (.int (-12)) (.int 12) "%+d semitones" 52 76 64
  let kbdOctave ← SysexInfoParamMap.init 0x2C "Keyboard Octave"
    (.int (-6)) (.int 5) "%+d octaves" 58 69 64
  let voice := SysexInfoSection.init "Voice"
    (some [polyphony, portamento, preGlide, kbdOctave])
  let osc1 ← SysexInfoSectionOscillator.init "Oscillator 1" 0x2D
  let osc2 ← SysexInfoSectionOscillator.init "Oscillator 2" 0x36
  let mixer ← SysexInfoSectionMixer.init "Mixer" 0x3F
  let env1v ← SysexInfoParamMap.init 0x4E "Envelope 1 Velocity"
    (.int (-64)) (.int 64) "%s%%" 0 127 64
  let env1 ← SysexInfoSectionEnvelope.init "Envelope 1" 0x4E (some [env1v])
  let env2v ← SysexInfoParamMap.init 0x53 "Envelope 2 Velocity"
    (.int (-64)) (.int 64) "%s%%" 0 127 64
  let env2 ← SysexInfoSectionEnvelope.init "Envelope 2" 0x53 (some [env2v])
  let env3d ← SysexInfoParamMap.init 0x58 "Envelope 3 Delay"
    (.int 0) (.int 100) "%s%%" 0 127 0
  let env3 ← SysexInfoSectionEnvelope.init "Envelope 3" 0x58 (some [env3d])
  pure (SysexInfo.mk "" [voice, osc1, osc2, mixer, env1, env2, env3])

/-! ### Decoder (`dump.py` lines 459-494)

`dump_sysex_patch_gv` first asserts its input is a bytestring (inherent in
the `List Nat` embedding of the buffer), then the header prefix, then the
exact length, and then
walks sections and parameters: for each parameter it reads the byte at
`param.offset`, assigns it to `param.raw`, and evaluates `param.value`
(formatting the just-assigned byte), collecting `(name, raw, value)` report
rows per section; finally it returns `PATCH_INFO.to_gv()`.  The schema is
passed explicitly here (the source reads the module-level `PATCH_INFO`);
success returns the updated schema, the tabular report (the source sends it to
`logging`) and the rendered graph text. -/

def SysexInfoParam.setRaw (p : SysexInfoParam) (r : Int) : SysexInfoParam :=
  ⟨p.offset, p.name, p.range_min, p.range_max, p.default, some r, p.kind⟩

/-- One iteration of the inner loop: `raw = ord(sysex[param.offset]);
param.raw = raw; group_table.append(['', param.name, raw, param.value])`. -/
def decodeParam (sysex : List Nat) (p : SysexInfoParam) :
    Except SysexError (SysexInfoParam × (String × Nat × DisplayValue)) := do
  let raw ← pyListGet sysex p.offset
  let p2 := p.setRaw (raw : Int)
  let v ← p2.value
  pure (p2, (p2.name, raw, v))

/-- One iteration of the outer loop over `PATCH_INFO`'s sections. -/
def decodeSection (sysex : List Nat) (s : SysexInfoSection) :
    Except SysexError (SysexInfoSection × (String × List (String × Nat × DisplayValue))) :=
  match mapMExcept (decodeParam sysex) s.params with
  | .error e => .error e
  | .ok results =>
    .ok (⟨s.kind, s.name, results.map Prod.fst⟩, (s.name, results.map Prod.snd))

/-- The section/parameter walk of `dump_sysex_patch_gv`. -/
def decodePatch (info : SysexInfo) (sysex : List Nat) :
    Except SysexError (SysexInfo × List (String × List (String × Nat × DisplayValue))) :=
  match mapMExcept (decodeSection sysex) info.sections with
  | .error e => .error e
  | .ok results =>
    .ok (⟨info.name, results.map Prod.fst⟩, results.map Prod.snd)

/-- `dump_sysex_patch_gv`: the two structural asserts in source order, then
the decode walk, then `to_gv` on the updated schema. -/
def dump_sysex_patch_gv (info : SysexInfo) (sysex : List Nat) :
    Except SysexError (SysexInfo × List (String × List (String × Nat × DisplayValue)) × String) :=
  if PATCH_HEADER.isPrefixOf sysex then
    if sysex.length = PATCH_LEN then
      match decodePatch info sysex with
      | .error e => .error e
      | .ok (info2, report) =>
        match info2.to_gv 0 with
        | .error e => .error e
        | .ok gv => .ok (info2, report, gv)
    else .error (.lengthMismatch PATCH_LEN sysex.length)
  else .error (.headerMismatch PATCH_HEADER (sysex.take PATCH_HEADER.length))

/-- Project a dump result onto the report rows bearing a given parameter
name, section by section. -/
def dumpReportEntries (name : String)
    (r : Except SysexError
      (SysexInfo × List (String × List (String × Nat × DisplayValue)) × String)) :
    Except SysexError (List (List (String × Nat × DisplayValue))) :=
  Except.map
    (fun res => res.2.1.map (fun sec => sec.2.filter (fun e => e.1 = name)))
    r

def SysexInfoParam.clearRaw (p : SysexInfoParam) : SysexInfoParam :=
  ⟨p.offset, p.name, p.range_min, p.range_max, p.default, none, p.kind⟩

/-- The schema as it stands before any decode: every `raw` slot empty. -/
def SysexInfoSection.clearRaws (s : SysexInfoSection) : SysexInfoSection :=
  ⟨s.kind, s.name, s.params.map SysexInfoParam.clearRaw⟩

/-! ### Concrete values used by witnesses and counterexamples -/

/-- The `Portamento Rate` parameter exactly as `PATCH_INFO` constructs it:
`SysexInfoParamMap(0x2A, 'Portamento Rate')` with all defaults
(raw range `0..127`, map `0..100`, format `'%s%%'`). -/
def portamentoRateParam : SysexInfoParam :=
  ⟨0x2A, "Portamento Rate", 0, 127, 0, none, .map (.int 0) (.int 100) "%s%%"⟩

/-- The `Polyphony Mode` choice parameter of the Voice section. -/
def polyP : SysexInfoParam :=
  ⟨0x29, "Polyphony Mode", 0, 2, 2, none, .choice ["Mono", "MonoAG", "Poly"]⟩

/-- A plain (identity-formatting) parameter. -/
def idP : SysexInfoParam := ⟨0, "id", 0, 127, 0, none, .base⟩

/-- A constructible choice parameter with `range_min = 1`. -/
def choiceRm1 : SysexInfoParam := ⟨0, "x", 1, 2, 1, none, .choice ["a", "b"]⟩

/-- A constructible map parameter with `range_min = range_max`. -/
def degenerateMapParam : SysexInfoParam :=
  ⟨0, "x", 5, 5, 5, none, .map (.int 0) (.int 100) "%s%%"⟩

/-- The `Envelope 1 Velocity` parameter of `PATCH_INFO`. -/
def env1VelocityParam : SysexInfoParam :=
  ⟨0x4E, "Envelope 1 Velocity", 0, 127, 64, none, .map (.int (-64)) (.int 64) "%s%%"⟩

/-- The `Envelope 1` section of `PATCH_INFO` (velocity plus ADSR). -/
def env1Section : SysexInfoSection :=
  ⟨.envelope, "Envelope 1",
   [env1VelocityParam,
    ⟨0x4F, "Envelope 1 Attack", 0, 127, 0, none, .map (.int 0) (.int 100) "%s%%"⟩,
    ⟨0x50, "Envelope 1 Decay", 0, 127, 0, none, .map (.int 0) (.int 100) "%s%%"⟩,
    ⟨0x51, "Envelope 1 Sustain", 0, 127, 0, none, .map (.int 0) (.int 100) "%s%%"⟩,
    ⟨0x52, "Envelope 1 Release", 0, 127, 0, none, .map (.int 0) (.int 100) "%s%%"⟩]⟩

/-- A well-formed 350-byte buffer: valid header, every byte within its
parameter's raw range, byte `0x2A` equal to 50. -/
def cbuf : List Nat :=
  ((([0xF0, 0x00, 0x20, 0x29] ++ List.replicate 346 0).set 42 50).set 43 64).set 44 64

/-- Naive substring search on character lists. -/
def containsSeq (pat : List Char) : List Char → Bool
  | [] => pat.isEmpty
  | c :: rest => pat.isPrefixOf (c :: rest) || containsSeq pat rest

/-! ### General lemmas -/

theorem mapMExcept_ok_length {α β : Type} (f : α → Except SysexError β) :
    ∀ (l : List α) (l2 : List β), mapMExcept f l = .ok l2 → l2.length = l.length := by
  intro l
  induction l with
  | nil => intro l2 h; cases h; rfl
  | cons a rest ih =>
    intro l2 h
    unfold mapMExcept at h
    cases hf : f a with
    | error e => rw [hf] at h; cases h
    | ok b =>
      rw [hf] at h
      cases hr : mapMExcept f rest with
      | error e => rw [hr] at h; cases h
      | ok bs =>
        rw [hr] at h
        cases h
        simp [ih bs hr]

/-- `mapLinear` agrees with the source's textbook expression away from the
zero divisor. -/
theorem mapLinear_eq (raw range_min range_max : Int) (map_min map_max : PyNum)
    (h : range_max - range_min ≠ 0) :
    mapLinear raw range_min range_max map_min map_max =
      ((raw - range_min : Int) : Rat) * (map_max.toRat - map_min.toRat) /
        ((range_max - range_min : Int) : Rat) + map_min.toRat := by
  simp only [mapLinear]
  generalize map_min.toRat = m
  generalize map_max.toRat = M
  have hD : ((range_max - range_min : Int) : Rat) ≠ 0 := Int.cast_ne_zero.mpr h
  have hdm : ((m.den : Nat) : Rat) ≠ 0 := Nat.cast_ne_zero.mpr m.den_nz
  have hdM : ((M.den : Nat) : Rat) ≠ 0 := Nat.cast_ne_zero.mpr M.den_nz
  have hm : ((m.num : Int) : Rat) = m * ((m.den : Nat) : Rat) :=
    (div_eq_iff hdm).mp (Rat.num_div_den m)
  have hM : ((M.num : Int) : Rat) = M * ((M.den : Nat) : Rat) :=
    (div_eq_iff hdM).mp (Rat.num_div_den M)
  have hden : (((range_max - range_min) * (M.den : Int) * (m.den : Int) : Int) : Rat) ≠ 0 := by
    refine Int.cast_ne_zero.mpr (mul_ne_zero (mul_ne_zero h ?_) ?_)
    · exact_mod_cast M.den_nz
    · exact_mod_cast m.den_nz
  rw [Rat.divInt_eq_div, div_add' _ _ _ hD, div_eq_div_iff hden hD]
  push_cast
  rw [hm, hM]
  ring

/-! ### C1 -/

/-- C1: decoding checks the two structural preconditions in a fixed order
with distinct error kinds: a buffer whose first 4 bytes differ from the fixed
signature `F0 00 20 29` fails with a header error (before any parameter byte
is read), and a buffer with a valid header whose length is not exactly 350
bytes fails with a length error; in both cases the decode aborts with no
report and no parameter `raw` assignment (the error result carries no updated
schema). -/
theorem C1_structural_checks (info : SysexInfo) (sysex : List Nat) :
    (PATCH_HEADER.isPrefixOf sysex = false →
      dump_sysex_patch_gv info sysex =
        .error (.headerMismatch PATCH_HEADER (sysex.take PATCH_HEADER.length)))
    ∧ (PATCH_HEADER.isPrefixOf sysex = true → sysex.length ≠ PATCH_LEN →
      dump_sysex_patch_gv info sysex =
        .error (.lengthMismatch PATCH_LEN sysex.length)) := by
  constructor
  · intro h
    unfold dump_sysex_patch_gv
    simp [h]
  · intro h hlen
    unfold dump_sysex_patch_gv
    simp [h, hlen]

theorem C1_structural_checks_witness :
    dump_sysex_patch_gv (SysexInfo.mk "" []) [0xF1, 0x00, 0x20, 0x29] =
      .error (.headerMismatch PATCH_HEADER ([0xF1, 0x00, 0x20, 0x29].take PATCH_HEADER.length))
    ∧ dump_sysex_patch_gv (SysexInfo.mk "" []) [0xF0, 0x00, 0x20, 0x29] =
      .error (.lengthMismatch PATCH_LEN [0xF0, 0x00, 0x20, 0x29].length) :=
  ⟨(C1_structural_checks (SysexInfo.mk "" []) [0xF1, 0x00, 0x20, 0x29]).1 (by decide),
   (C1_structural_checks (SysexInfo.mk "" []) [0xF0, 0x00, 0x20, 0x29]).2 (by decide) (by decide)⟩

/-! ### C2 -/

/-- C2 (amended): the Portamento Rate parameter maps raw range `[0,127]` to
`[0,100]` (truncating), so for a buffer whose byte at offset `0x2A` is 50,
decoding that parameter yields the formatted value `"39%"` (`int(5000/127)`),
not `"50%"`. -/
theorem C2_portamento_rate_decode (sysex : List Nat)
    (h : pyListGet sysex (0x2A : Int) = .ok 50) :
    SysexInfoParamMap.init 0x2A "Portamento Rate" (.int 0) (.int 100) "%s%%" 0 127 0 =
      .ok portamentoRateParam
    ∧ decodeParam sysex portamentoRateParam =
      .ok (portamentoRateParam.setRaw 50, ("Portamento Rate", 50, .str "39%")) := by
  constructor
  · decide
  · unfold decodeParam
    have hoff : portamentoRateParam.offset = (0x2A : Int) := rfl
    rw [hoff, h]
    decide

theorem C2_portamento_rate_decode_witness :
    SysexInfoParamMap.init 0x2A "Portamento Rate" (.int 0) (.int 100) "%s%%" 0 127 0 =
      .ok portamentoRateParam
    ∧ decodeParam cbuf portamentoRateParam =
      .ok (portamentoRateParam.setRaw 50, ("Portamento Rate", 50, .str "39%")) :=
  C2_portamento_rate_decode cbuf (by decide)

/-- C2 counterexample: on the explicit well-formed 350-byte buffer `cbuf`
(valid header, byte `0x2A = 50`), decoding the Portamento Rate parameter
yields `"39%"`, refuting the claimed `"50%"`; running the full
`dump_sysex_patch_gv` over the whole `PATCH_INFO` schema confirms the
decode succeeds and its report carries exactly that row. -/
theorem C2_counterexample :
    pyListGet cbuf (0x2A : Int) = .ok 50
    ∧ cbuf.length = 350
    ∧ PATCH_HEADER.isPrefixOf cbuf = true
    ∧ decodeParam cbuf portamentoRateParam =
      .ok (portamentoRateParam.setRaw 50, ("Portamento Rate", 50, .str "39%"))
    ∧ decodeParam cbuf portamentoRateParam ≠
      .ok (portamentoRateParam.setRaw 50, ("Portamento Rate", 50, .str "50%"))
    ∧ (match PATCH_INFO with
        | .ok info => dumpReportEntries "Portamento Rate" (dump_sysex_patch_gv info cbuf)
        | .error e => .error e) =
      .ok [[("Portamento Rate", 50, DisplayValue.str "39%")], [], [], [], [], [], []] := by
  decide

/-! ### C7 -/

/-- C7: for an identity (base) parameter, `format` fails with the range error
exactly when `raw` lies outside `[range_min, range_max]`, and otherwise
returns the raw integer unchanged. -/
theorem C7_identity_format (p : SysexInfoParam) (raw : Int)
    (hk : p.kind = .base) :
    (p.range_min ≤ raw ∧ raw ≤ p.range_max → p.format raw = .ok (.int raw))
    ∧ (¬(p.range_min ≤ raw ∧ raw ≤ p.range_max) →
        p.format raw = .error (.rangeAssert raw p.range_min p.range_max)) := by
  constructor <;> intro h <;>
    simp [SysexInfoParam.format, SysexInfoParam.formatBase, hk, h]

theorem C7_identity_format_witness :
    idP.format 5 = .ok (.int 5)
    ∧ idP.format 200 = .error (.rangeAssert 200 idP.range_min idP.range_max) :=
  ⟨(C7_identity_format idP 5 rfl).1 (by decide),
   (C7_identity_format idP 200 rfl).2 (by decide)⟩

/-! ### C9 -/

/-- C9: the `value` accessor returns `format default` while `raw` is
unassigned and `format raw` once a decode has assigned it; consequently the
graph label rendered before any decode derives from the default's formatted
value. -/
theorem C9_value_accessor (p : SysexInfoParam) (r : Int) :
    (p.raw = none → p.value = p.format p.default)
    ∧ (p.raw = some r → p.value = p.format r)
    ∧ (p.raw = none →
        p.label = Except.map
          (fun v => "\x7b<mod>m|<in>i\x7d|\x7b" ++ p.name ++ "|" ++
            DisplayValue.pyStr v ++ "\x7d|<out>o")
          (p.format p.default)) := by
  refine ⟨?_, ?_, ?_⟩ <;> intro h
  · simp [SysexInfoParam.value, h]
  · simp [SysexInfoParam.value, h]
  · unfold SysexInfoParam.label SysexInfoParam.value
    rw [h]
    cases p.format p.default <;> rfl

theorem C9_value_accessor_witness :
    portamentoRateParam.value = portamentoRateParam.format portamentoRateParam.default
    ∧ (portamentoRateParam.setRaw 7).value = (portamentoRateParam.setRaw 7).format 7 :=
  ⟨(C9_value_accessor portamentoRateParam 0).1 rfl,
   (C9_value_accessor (portamentoRateParam.setRaw 7) 7).2.1 rfl⟩

/-! ### C10 -/

/-- C10: constructing an Envelope section with the extra-parameters argument
omitted (`None`) raises an error (the source's `params is None` branch
assigns `defaults = []` instead of `params = []`, so `params += [...]` hits
`None`); when the argument is supplied, the section is the caller's
parameters followed by the four ADSR parameters. -/
theorem C10_envelope_requires_params (name : String) (offset : Int)
    (ps : List SysexInfoParam) :
    SysexInfoSectionEnvelope.init name offset none = .error .typeError
    ∧ SysexInfoSectionEnvelope.init name offset (some ps) =
      .ok (SysexInfoSection.mk .envelope name (ps ++
        [⟨offset + 0x01, name ++ " Attack", 0, 127, 0, none, .map (.int 0) (.int 100) "%s%%"⟩,
         ⟨offset + 0x02, name ++ " Decay", 0, 127, 0, none, .map (.int 0) (.int 100) "%s%%"⟩,
         ⟨offset + 0x03, name ++ " Sustain", 0, 127, 0, none, .map (.int 0) (.int 100) "%s%%"⟩,
         ⟨offset + 0x04, name ++ " Release", 0, 127, 0, none, .map (.int 0) (.int 100) "%s%%"⟩])) :=
  ⟨rfl, rfl⟩

/-! ### Inversion lemmas for the constructors -/

theorem SysexInfoParam.init_ok (offset : Int) (name : String)
    (rmin rmax dflt : Int) (kind : SysexInfoParamKind) (p : SysexInfoParam)
    (h : SysexInfoParam.init offset name rmin rmax dflt kind = .ok p) :
    rmin ≤ rmax ∧ rmin ≤ dflt ∧ dflt ≤ rmax ∧
      p = ⟨offset, name, rmin, rmax, dflt, none, kind⟩ := by
  unfold SysexInfoParam.init at h
  split at h
  case isTrue h1 =>
    split at h
    case isTrue h2 =>
      cases h
      exact ⟨h1, h2.1, h2.2, rfl⟩
    case isFalse h2 => exact Except.noConfusion h
  case isFalse h1 => exact Except.noConfusion h

theorem SysexInfoParamChoice.choice_init_ok (offset : Int) (name : String)
    (choices : List String) (rmin dflt : Int) (p : SysexInfoParam)
    (h : SysexInfoParamChoice.init offset name choices rmin dflt = .ok p) :
    1 ≤ choices.length ∧ rmin ≤ dflt ∧ dflt ≤ rmin + (choices.length : Int) - 1 ∧
      p = ⟨offset, name, rmin, rmin + (choices.length : Int) - 1, dflt, none,
        .choice choices⟩ := by
  unfold SysexInfoParamChoice.init at h
  split at h
  case isTrue hc => exact Except.noConfusion h
  case isFalse hc =>
    obtain ⟨h1, h2, h3, h4⟩ := SysexInfoParam.init_ok _ _ _ _ _ _ _ h
    exact ⟨by omega, h2, h3, h4⟩

theorem SysexInfoParamMap.map_init_ok (offset : Int) (name : String)
    (mmin mmax : PyNum) (fmt : String) (rmin rmax dflt : Int) (p : SysexInfoParam)
    (h : SysexInfoParamMap.init offset name mmin mmax fmt rmin rmax dflt = .ok p) :
    PyNum.sameKind mmin mmax = true ∧ rmin ≤ rmax ∧ rmin ≤ dflt ∧ dflt ≤ rmax ∧
      p = ⟨offset, name, rmin, rmax, dflt, none, .map mmin mmax fmt⟩ := by
  unfold SysexInfoParamMap.init at h
  split at h
  case isTrue hsk =>
    obtain ⟨h1, h2, h3, h4⟩ := SysexInfoParam.init_ok _ _ _ _ _ _ _ h
    exact ⟨hsk, h1, h2, h3, h4⟩
  case isFalse hsk => exact Except.noConfusion h

theorem SysexInfoParam.init_isOk_iff (offset : Int) (name : String)
    (rmin rmax dflt : Int) (kind : SysexInfoParamKind) :
    (SysexInfoParam.init offset name rmin rmax dflt kind).isOk = true ↔
      rmin ≤ rmax ∧ rmin ≤ dflt ∧ dflt ≤ rmax := by
  unfold SysexInfoParam.init
  split
  case isTrue h1 =>
    split
    case isTrue h2 => simp [Except.isOk, Except.toBool, h1, h2.1, h2.2]
    case isFalse h2 =>
      simp only [Except.isOk, Except.toBool, Bool.false_eq_true, false_iff]
      omega
  case isFalse h1 =>
    simp only [Except.isOk, Except.toBool, Bool.false_eq_true, false_iff]
    omega

/-! ### C4 -/

/-- C4 (amended): a Choice constructor with `k` labels always forces
`range_max - range_min = k - 1`; when `range_min = 0` (as in every predefined
Choice parameter) `format` is additionally total and correct over every index
`0..k-1`, returning the label at that index.  (With `range_min > 0` the
source indexes `choices[raw]` rather than `choices[raw - range_min]`, so
totality over `0..k-1` fails — see the counterexample.) -/
theorem C4_choice_forced_range (offset : Int) (name : String)
    (choices : List String) (range_min dflt : Int) (p : SysexInfoParam)
    (h : SysexInfoParamChoice.init offset name choices range_min dflt = .ok p) :
    p.range_max - p.range_min = (choices.length : Int) - 1
    ∧ (range_min = 0 → ∀ (i : Nat) (hi : i < choices.length),
        p.format (i : Int) = .ok (.str (choices.get ⟨i, hi⟩))) := by
  obtain ⟨hk, hd1, hd2, rfl⟩ := SysexInfoParamChoice.choice_init_ok _ _ _ _ _ _ h
  refine ⟨by ring, ?_⟩
  rintro rfl i hi
  have hA : (0 : Int) ≤ (i : Int) := Int.natCast_nonneg i
  have hB : (i : Int) ≤ 0 + (choices.length : Int) - 1 := by omega
  have hC : (i : Int) < (choices.length : Int) := by exact_mod_cast hi
  simp only [SysexInfoParam.format, SysexInfoParam.formatBase, pyListGet,
    hA, hB, hC, and_self, if_true, Int.toNat_natCast, List.get?_eq_get hi]

theorem C4_choice_forced_range_witness :
    polyP.range_max - polyP.range_min = ((["Mono", "MonoAG", "Poly"].length : Int)) - 1
    ∧ polyP.format ((1 : Nat) : Int) =
      .ok (.str (["Mono", "MonoAG", "Poly"].get ⟨1, by decide⟩)) := by
  have h := C4_choice_forced_range 0x29 "Polyphony Mode" ["Mono", "MonoAG", "Poly"]
    0 2 polyP (by decide)
  exact ⟨h.1, h.2 rfl 1 (by decide)⟩

/-- C4 counterexample: the constructible Choice parameter with
`range_min = 1` and labels `["a", "b"]` is not total over the index range
`0..k-1`: `format 0` fails with a range error instead of returning `"a"`. -/
theorem C4_counterexample :
    SysexInfoParamChoice.init 0 "x" ["a", "b"] 1 1 = .ok choiceRm1
    ∧ choiceRm1.format ((0 : Nat) : Int) = .error (.rangeAssert 0 1 2)
    ∧ choiceRm1.format ((0 : Nat) : Int) ≠ .ok (.str "a")
    ∧ (0 : Nat) < ["a", "b"].length := by
  decide

/-! ### C5 -/

/-- C5 (amended): for every Linear-map parameter whose raw range is
non-degenerate (`range_min < range_max`), formatting the boundary raw values
round-trips to the map endpoints: `format range_min` renders `map_min` (cast
to the kind of `map_min`) through the format string, and `format range_max`
renders `map_max` likewise.  (A constructible parameter with
`range_min = range_max` instead raises `ZeroDivisionError` — see the
counterexample.) -/
theorem C5_map_boundary_roundtrip (offset : Int) (name : String)
    (mmin mmax : PyNum) (fmt : String) (rmin rmax dflt : Int)
    (p : SysexInfoParam)
    (h : SysexInfoParamMap.init offset name mmin mmax fmt rmin rmax dflt = .ok p)
    (hlt : rmin < rmax) :
    p.format rmin = .ok (.str (pyFormat fmt (PyNum.castFrom mmin mmin.toRat)))
    ∧ p.format rmax = .ok (.str (pyFormat fmt (PyNum.castFrom mmin mmax.toRat))) := by
  obtain ⟨hsk, h1, h2, h3, rfl⟩ := SysexInfoParamMap.map_init_ok _ _ _ _ _ _ _ _ _ h
  have hne : ¬(rmax - rmin = 0) := by omega
  have hle : rmin ≤ rmax := le_of_lt hlt
  constructor
  · have hv : mapLinear rmin rmin rmax mmin mmax = mmin.toRat := by
      rw [mapLinear_eq _ _ _ _ _ hne]
      simp
    simp only [SysexInfoParam.format, SysexInfoParam.formatBase,
      le_refl, hle, and_self, true_and, and_true, if_true, hne, if_false, hv]
  · have hcast : ((rmax - rmin : Int) : Rat) ≠ 0 := Int.cast_ne_zero.mpr hne
    have hv : mapLinear rmax rmin rmax mmin mmax = mmax.toRat := by
      rw [mapLinear_eq _ _ _ _ _ hne]
      rw [mul_div_cancel_left₀ _ hcast, sub_add_cancel]
    simp only [SysexInfoParam.format, SysexInfoParam.formatBase,
      le_refl, hle, and_self, true_and, and_true, if_true, hne, if_false, hv]

theorem C5_map_boundary_roundtrip_witness :
    portamentoRateParam.format 0 =
      .ok (.str (pyFormat "%s%%" (PyNum.castFrom (.int 0) (PyNum.toRat (.int 0)))))
    ∧ portamentoRateParam.format 127 =
      .ok (.str (pyFormat "%s%%" (PyNum.castFrom (.int 0) (PyNum.toRat (.int 100))))) :=
  C5_map_boundary_roundtrip 0x2A "Portamento Rate" (.int 0) (.int 100) "%s%%"
    0 127 0 portamentoRateParam (by decide) (by decide)

/-- C5 counterexample: the constructible map parameter with
`range_min = range_max = 5` raises `ZeroDivisionError` at its boundary raw
value instead of producing the `map_min`-derived string `"0%"`. -/
theorem C5_counterexample :
    SysexInfoParamMap.init 0 "x" (.int 0) (.int 100) "%s%%" 5 5 5 =
      .ok degenerateMapParam
    ∧ degenerateMapParam.format degenerateMapParam.range_min = .error .zeroDivision
    ∧ degenerateMapParam.format degenerateMapParam.range_min ≠
      .ok (.str (pyFormat "%s%%" (PyNum.castFrom (.int 0) (PyNum.toRat (.int 0))))) := by
  decide

/-! ### C6 -/

/-- C6 (amended): construction through the base Parameter constructor fails
exactly when `range_min > range_max` or `default` lies outside
`[range_min, range_max]`, and a Choice parameter fails exactly when those
conditions fail for its forced `range_max`; but a Map parameter additionally
fails when `map_min` and `map_max` differ in numeric kind, even with valid
bounds — see the counterexample.  All of this validation happens at
construction time. -/
theorem C6_construction_validation (offset : Int) (name : String)
    (rmin rmax dflt : Int) (kind : SysexInfoParamKind)
    (choices : List String) (mmin mmax : PyNum) (fmt : String) :
    ((SysexInfoParam.init offset name rmin rmax dflt kind).isOk = true ↔
      rmin ≤ rmax ∧ rmin ≤ dflt ∧ dflt ≤ rmax)
    ∧ ((SysexInfoParamChoice.init offset name choices rmin dflt).isOk = true ↔
      rmin ≤ rmin + (choices.length : Int) - 1 ∧ rmin ≤ dflt ∧
        dflt ≤ rmin + (choices.length : Int) - 1)
    ∧ ((SysexInfoParamMap.init offset name mmin mmax fmt rmin rmax dflt).isOk = true ↔
      PyNum.sameKind mmin mmax = true ∧ rmin ≤ rmax ∧ rmin ≤ dflt ∧ dflt ≤ rmax) := by
  refine ⟨SysexInfoParam.init_isOk_iff _ _ _ _ _ _, ?_, ?_⟩
  · unfold SysexInfoParamChoice.init
    split
    case isTrue hc =>
      simp only [Except.isOk, Except.toBool, Bool.false_eq_true, false_iff]
      omega
    case isFalse hc => exact SysexInfoParam.init_isOk_iff _ _ _ _ _ _
  · unfold SysexInfoParamMap.init
    split
    case isTrue hsk => rw [SysexInfoParam.init_isOk_iff]; simp [hsk]
    case isFalse hsk => simp [Except.isOk, Except.toBool, hsk]

/-- C6 counterexample: a Map parameter whose endpoints differ in numeric kind
fails construction even though `range_min ≤ default ≤ range_max`. -/
theorem C6_counterexample :
    SysexInfoParamMap.init 0 "x" (.int 0) (.float 100) "%s" 0 127 0 =
      .error .mapTypeAssert
    ∧ ((0 : Int) ≤ 127 ∧ (0 : Int) ≤ 0 ∧ (0 : Int) ≤ 127) := by
  decide

/-! ### C8 -/

/-- C8 (amended): for a Choice parameter constructed with `range_min = 0`
(as every predefined Choice parameter is), whenever the base range validation
passes the defensive index check is unreachable: `raw` is strictly below the
label count and `format` succeeds with a label.  (With `range_min > 0` the
branch is reachable — see the counterexample.) -/
theorem C8_choice_defensive_check (offset : Int) (name : String)
    (choices : List String) (dflt raw : Int) (p : SysexInfoParam)
    (h : SysexInfoParamChoice.init offset name choices 0 dflt = .ok p)
    (hlo : p.range_min ≤ raw) (hhi : raw ≤ p.range_max) :
    raw < (choices.length : Int)
    ∧ ∃ lbl, p.format raw = .ok (.str lbl) := by
  obtain ⟨hk, hd1, hd2, rfl⟩ := SysexInfoParamChoice.choice_init_ok _ _ _ _ _ _ h
  simp only at hlo hhi
  have hraw : raw < (choices.length : Int) := by omega
  have hn : raw.toNat < choices.length := by omega
  refine ⟨hraw, choices.get ⟨raw.toNat, hn⟩, ?_⟩
  have h4 : (0 : Int) ≤ raw := by omega
  have h5 : raw ≤ 0 + (choices.length : Int) - 1 := by omega
  simp only [SysexInfoParam.format, SysexInfoParam.formatBase, pyListGet,
    h4, h5, hraw, and_self, true_and, and_true, if_true, List.get?_eq_get hn]

theorem C8_choice_defensive_check_witness :
    (2 : Int) < ((["Mono", "MonoAG", "Poly"].length : Int))
    ∧ ∃ lbl, polyP.format 2 = .ok (.str lbl) :=
  C8_choice_defensive_check 0x29 "Polyphony Mode" ["Mono", "MonoAG", "Poly"]
    2 2 polyP (by decide) (by decide) (by decide)

/-- C8 counterexample: for the constructible Choice parameter with
`range_min = 1` and two labels, `raw = 2` passes the base range validation
(`1 ≤ 2 ≤ 2`) yet fires the defensive index branch. -/
theorem C8_counterexample :
    SysexInfoParamChoice.init 0 "x" ["a", "b"] 1 1 = .ok choiceRm1
    ∧ choiceRm1.range_min ≤ 2 ∧ (2 : Int) ≤ choiceRm1.range_max
    ∧ choiceRm1.format 2 = .error (.choiceIndexAssert 2 2) := by
  decide

/-! ### C3 -/

theorem gv_components_base_length (s : SysexInfoSection) (l : List String)
    (h : s.gv_components_base = .ok l) : l.length = 1 + s.params.length := by
  unfold SysexInfoSection.gv_components_base at h
  split at h
  case h_1 => exact Except.noConfusion h
  case h_2 stmts heq =>
    cases h
    simp [mapMExcept_ok_length _ _ _ heq, Nat.add_comm]

theorem gv_components_length_envelope (s : SysexInfoSection) (l : List String)
    (hk : s.kind = .envelope) (h : s.gv_components = .ok l) : l.length = 2 := by
  unfold SysexInfoSection.gv_components at h
  rw [hk] at h
  cases h
  rfl

theorem gv_components_length_other (s : SysexInfoSection) (l : List String)
    (hk : s.kind ≠ .envelope) (h : s.gv_components = .ok l) :
    l.length = 1 + s.params.length + (if s.kind = .mixer then 4 else 0) := by
  cases hcase : s.kind with
  | envelope => exact absurd hcase hk
  | mixer =>
    simp only [SysexInfoSection.gv_components, hcase] at h
    split at h
    case h_1 => exact Except.noConfusion h
    case h_2 base heq =>
      cases h
      simp [List.length_append, gv_components_base_length _ _ heq, hcase,
        mixer_extra_edges]
  | generic =>
    simp only [SysexInfoSection.gv_components, hcase] at h
    simp [gv_components_base_length _ _ h, hcase]
  | oscillator =>
    simp only [SysexInfoSection.gv_components, hcase] at h
    simp [gv_components_base_length _ _ h, hcase]

/-- C3 (amended): rendering emits exactly one subgraph per section plus the
two fixed cross-section edges; a non-Envelope section's subgraph contains one
handle statement plus exactly one node statement per parameter (the Mixer
adds its four fixed edges); but an Envelope section's subgraph contains
exactly two fixed node statements and none of its parameters, so the
schema-wide count of parameter node statements covers only non-Envelope
sections.  All counts are independent of whether a decode has assigned raw
values. -/
theorem C3_graph_render_counts :
    (∀ (info : SysexInfo) (ind : Nat) (l : List String),
        info.gv_components ind = .ok l → l.length = info.sections.length + 2)
    ∧ (∀ (s : SysexInfoSection) (ind : Nat) (g : String),
        s.to_gv ind = .ok g → ∃ rest, g = "subgraph " ++ rest)
    ∧ (∀ (s : SysexInfoSection) (l : List String), s.kind ≠ .envelope →
        s.gv_components = .ok l →
        l.length = 1 + s.params.length + (if s.kind = .mixer then 4 else 0))
    ∧ (∀ (s : SysexInfoSection) (l : List String), s.kind = .envelope →
        s.gv_components = .ok l → l.length = 2)
    ∧ (∀ (s : SysexInfoSection) (l l2 : List String),
        s.gv_components = .ok l → s.clearRaws.gv_components = .ok l2 →
        l2.length = l.length) := by
  refine ⟨?_, ?_, ?_, ?_, ?_⟩
  · intro info ind l h
    unfold SysexInfo.gv_components at h
    split at h
    case h_1 => exact Except.noConfusion h
    case h_2 secs heq =>
      cases h
      simp [List.length_append, mapMExcept_ok_length _ _ _ heq]
  · intro s ind g h
    unfold SysexInfoSection.to_gv at h
    split at h
    case h_1 => exact Except.noConfusion h
    case h_2 comps heq =>
      cases h
      exact ⟨_, rfl⟩
  · intro s l hk h
    exact gv_components_length_other s l hk h
  · intro s l hk h
    exact gv_components_length_envelope s l hk h
  · intro s l l2 h h2
    have hck : s.clearRaws.kind = s.kind := rfl
    have hcp : s.clearRaws.params.length = s.params.length :=
      List.length_map _ _
    by_cases hk : s.kind = .envelope
    · rw [gv_components_length_envelope s l hk h,
        gv_components_length_envelope s.clearRaws l2 (hck.trans hk) h2]
    · rw [gv_components_length_other s l hk h,
        gv_components_length_other s.clearRaws l2 (by rw [hck]; exact hk) h2,
        hcp, hck]

theorem C3_graph_render_counts_witness :
    ((["handle_oscillator1:out -> oscillator1level:in  [style=bold,color=red];",
       "handle_oscillator2:out -> oscillator2level:in  [style=bold,color=red];"] :
        List String).length = (SysexInfo.mk "" []).sections.length + 2)
    ∧ (∃ rest,
        "subgraph cluster_v \x7b\n\thandle_v  [label=\"<in>|V|<out>\",style=bold,shape=record]\n\x7d"
          = "subgraph " ++ rest)
    ∧ ((["handle_v  [label=\"<in>|V|<out>\",style=bold,shape=record]",
         "id [shape=record,label=\"\x7b<mod>m|<in>i\x7d|\x7bid|0\x7d|<out>o\"];"] :
          List String).length
      = 1 + (SysexInfoSection.mk .generic "V" [idP]).params.length +
        (if (SysexInfoSection.mk .generic "V" [idP]).kind = SysexInfoSectionKind.mixer
          then 4 else 0))
    ∧ ((["handle_oscillator1_cluster_envelope1",
         "handle_oscillator1_cluster_envelope1"] : List String).length = 2)
    ∧ ((["handle_oscillator1_cluster_envelope1",
         "handle_oscillator1_cluster_envelope1"] : List String).length
      = (["handle_oscillator1_cluster_envelope1",
          "handle_oscillator1_cluster_envelope1"] : List String).length) := by
  refine ⟨?_, ?_, ?_, ?_, ?_⟩
  · exact C3_graph_render_counts.1 (SysexInfo.mk "" []) 0
      ["handle_oscillator1:out -> oscillator1level:in  [style=bold,color=red];",
       "handle_oscillator2:out -> oscillator2level:in  [style=bold,color=red];"]
      (by decide)
  · exact C3_graph_render_counts.2.1 (SysexInfoSection.mk .generic "V" []) 0
      "subgraph cluster_v \x7b\n\thandle_v  [label=\"<in>|V|<out>\",style=bold,shape=record]\n\x7d"
      (by decide)
  · exact C3_graph_render_counts.2.2.1 (SysexInfoSection.mk .generic "V" [idP])
      ["handle_v  [label=\"<in>|V|<out>\",style=bold,shape=record]",
       "id [shape=record,label=\"\x7b<mod>m|<in>i\x7d|\x7bid|0\x7d|<out>o\"];"]
      (by decide) (by decide)
  · exact C3_graph_render_counts.2.2.2.1 env1Section
      ["handle_oscillator1_cluster_envelope1",
       "handle_oscillator1_cluster_envelope1"] rfl (by decide)
  · exact C3_graph_render_counts.2.2.2.2 env1Section
      ["handle_oscillator1_cluster_envelope1",
       "handle_oscillator1_cluster_envelope1"]
      ["handle_oscillator1_cluster_envelope1",
       "handle_oscillator1_cluster_envelope1"] (by decide) (by decide)

/-- C3 counterexample: the schema consisting of the (five-parameter)
`Envelope 1` section renders to a graph text containing not a single
parameter node statement (marker `[shape=record,label=`), refuting the
claimed "exactly `m` parameter node statements"; the marker does appear when
a generic one-parameter section is rendered, so its absence is meaningful. -/
theorem C3_counterexample :
    SysexInfoSectionEnvelope.init "Envelope 1" 0x4E (some [env1VelocityParam]) =
      .ok env1Section
    ∧ env1Section.params.length = 5
    ∧ Except.map (fun g => containsSeq ("[shape=record,label=".data) g.data)
        ((SysexInfo.mk "" [env1Section]).to_gv 0) = .ok false
    ∧ Except.map (fun g => containsSeq ("[shape=record,label=".data) g.data)
        ((SysexInfo.mk "" [SysexInfoSection.mk .generic "V" [idP]]).to_gv 0) =
      .ok true := by
  decide
